import Mathlib

/-!
Shallow embedding of `src/xdrv_100_mcp41x.ino`, a Tasmota driver for the
MCP41xxx digital potentiometer.  The repository file contains two variants
of the driver separated by a document marker: the primary, percentage-based
variant (wiper expressed as 0.0–100.0 %) and an older raw variant (wiper
expressed as 0–255).  The percentage variant is embedded in full in
namespace `MCP41`; the parts of the raw variant that the claims reference
are embedded in namespace `MCP41Raw`.

Modelling conventions:
* C `float` is modelled as `ℚ`; the C cast `(uint8_t)` of a non-negative
  float is truncation, modelled as `Int.toNat ∘ Int.floor`.
* The host firmware's pin registry (`PinUsed` / `Pin`) is modelled by a
  `PinConfig` record of `Option Nat` fields (`none` = role not assigned).
* `int8_t` narrowing of a GPIO number is modelled by `int8OfNat`.
* Side effects (`digitalWrite`, `pinMode`, `SPI.*`, `delayMicroseconds`,
  `ExecuteCommand`) are modelled as an emitted trace of `Event`s; log
  output (`AddLog`) is not modelled.
* `Response_P` overwrites the single response buffer, so each command
  handler returns the final response that survives in the buffer.
-/

namespace MCP41

/-- Logic level written by `digitalWrite` (`LOW` / `HIGH`). -/
inductive Level where
  | low
  | high
deriving DecidableEq

/-- Pin direction set by `pinMode` (`INPUT` / `OUTPUT`). -/
inductive PMode where
  | input
  | output
deriving DecidableEq

/-- A command handed to the host firmware by `ExecuteCommand`.  The driver
only ever emits `RuleN <definition>` and `RuleN 1`; the definition
`Rule<slot> on <trigger> do <cmd> <arg> endon` is kept structurally. -/
inductive HostCmd where
  | ruleDefine (slot : Nat) (trigger : String) (cmd : String) (arg : ℚ)
  | ruleEnable (slot : Nat)
deriving DecidableEq

/-- Observable side effects of the driver, in program order. -/
inductive Event where
  | digitalWrite (pin : Int) (level : Level)
  | pinModeSet (pin : Int) (mode : PMode)
  | delayMicroseconds (us : Nat)
  | spiBeginPins (clk miso mosi : Option Int) (cs : Int)
  | spiBeginDefault
  | spiBeginTransaction
  | spiTransfer (b : Nat)
  | spiEndTransaction
  | execCommand (c : HostCmd)
deriving DecidableEq

/-- The host's GPIO template: which GPIO (if any) is assigned to each SPI
role.  `spiCs0`/`spiCs1` model `Pin(GPIO_SPI_CS, bus)` for buses 0 and 1;
likewise for clock / MOSI / MISO. -/
structure PinConfig where
  sspiCs   : Option Nat
  sspiClk  : Option Nat
  sspiMosi : Option Nat
  sspiMiso : Option Nat
  spiCs0   : Option Nat
  spiClk0  : Option Nat
  spiMosi0 : Option Nat
  spiMiso0 : Option Nat
  spiCs1   : Option Nat
  spiClk1  : Option Nat
  spiMosi1 : Option Nat
  spiMiso1 : Option Nat
deriving DecidableEq

/-- `Pin(GPIO_SPI_CS, bus)` of the model.  The driver only ever asks for
bus 0 or bus 1. -/
def PinConfig.spiCs (cfg : PinConfig) (bus : Nat) : Option Nat :=
  if bus = 0 then cfg.spiCs0 else cfg.spiCs1

def PinConfig.spiClk (cfg : PinConfig) (bus : Nat) : Option Nat :=
  if bus = 0 then cfg.spiClk0 else cfg.spiClk1

def PinConfig.spiMosi (cfg : PinConfig) (bus : Nat) : Option Nat :=
  if bus = 0 then cfg.spiMosi0 else cfg.spiMosi1

def PinConfig.spiMiso (cfg : PinConfig) (bus : Nat) : Option Nat :=
  if bus = 0 then cfg.spiMiso0 else cfg.spiMiso1

/-- The driver's mutable globals (the `static` block of the file). -/
structure State where
  cs_gpio     : Int
  cs_override : Int
  spi_inited  : Bool
  last_value  : ℚ
  use_sspi    : Bool
  sspi_clk    : Int
  sspi_mosi   : Int
  sspi_miso   : Int
  spi_clk     : Int
  spi_mosi    : Int
  spi_miso    : Int
  spi_bus     : Nat
deriving DecidableEq

/-- Initial values of the driver's globals. -/
def initState : State :=
  { cs_gpio := -1, cs_override := -1, spi_inited := false, last_value := 0,
    use_sspi := false, sspi_clk := -1, sspi_mosi := -1, sspi_miso := -1,
    spi_clk := -1, spi_mosi := -1, spi_miso := -1, spi_bus := 0 }

/-- `MCP41_CMD_WRITE_WIPER` (0x11). -/
def MCP41_CMD_WRITE_WIPER : Nat := 0x11

/-- `MCP41_RULE_SLOT` (3, Rule3 by default). -/
def MCP41_RULE_SLOT : Nat := 3

/-- `mcp41_raw_min` = `MCP41_SPI_MIN_VALUE` = 0. -/
def mcp41_raw_min : Nat := 0

/-- `mcp41_raw_max` = `MCP41_SPI_MAX_VALUE` = 255. -/
def mcp41_raw_max : Nat := 255

/-- The `(int8_t)` narrowing cast applied to a GPIO number. -/
def int8OfNat (p : Nat) : Int := (((p + 128) % 256 : Nat) : Int) - 128

/-- `Pin(...)` result cast to `int8_t`, given `PinUsed(...)` already held;
`none` never occurs on a taken branch but is mapped to `-1` for totality. -/
def pinOr (o : Option Nat) (d : Int) : Int :=
  match o with
  | some p => int8OfNat p
  | none => d

/-- `MCP41_ConvertToPercent` (percentage variant, lines 246–253). -/
def MCP41_ConvertToPercent (value : Nat) : ℚ :=
  if value < mcp41_raw_min then 0
  else if value > mcp41_raw_max then 100
  else ((value : ℚ) - (mcp41_raw_min : ℚ)) /
         ((mcp41_raw_max : ℚ) - (mcp41_raw_min : ℚ)) * 100

/-- `MCP41_ConvertToValue` (percentage variant, lines 260–267).  The C
cast `(uint8_t)` of the non-negative float is truncation toward zero. -/
def MCP41_ConvertToValue (percent : ℚ) : Nat :=
  if percent < 0 then mcp41_raw_min
  else if percent > 100 then mcp41_raw_max
  else (⌊percent * ((mcp41_raw_max : ℚ) - (mcp41_raw_min : ℚ)) / 100⌋).toNat
         + mcp41_raw_min

/-- The reset prefix of `MCP41_DetectPinsFromConfig` (lines 104–108). -/
def detectReset (s : State) : State :=
  { s with use_sspi := false,
           sspi_clk := -1, sspi_mosi := -1, sspi_miso := -1,
           spi_clk := -1, spi_mosi := -1, spi_miso := -1,
           spi_bus := 0 }

/-- The chip-select selection chain of `MCP41_DetectPinsFromConfig`
(lines 110–138): override > SSPI CS > SPI CS (bus 0) > SPI CS (bus 1),
falling back to `-1`. -/
def detectSelect (cfg : PinConfig) (s : State) : State :=
  if 0 ≤ s.cs_override then
    { s with cs_gpio := s.cs_override }
  else if cfg.sspiCs.isSome then
    { s with cs_gpio := pinOr cfg.sspiCs (-1), use_sspi := true }
  else if cfg.spiCs0.isSome then
    { s with cs_gpio := pinOr cfg.spiCs0 (-1), use_sspi := false, spi_bus := 0 }
  else if cfg.spiCs1.isSome then
    { s with cs_gpio := pinOr cfg.spiCs1 (-1), use_sspi := false, spi_bus := 1 }
  else
    { s with cs_gpio := -1 }

/-- The bus-pin reading suffix of `MCP41_DetectPinsFromConfig`
(lines 140–158): read the remaining pins of the retained bus. -/
def detectReadPins (cfg : PinConfig) (s : State) : State :=
  if s.use_sspi then
    { s with sspi_clk  := pinOr cfg.sspiClk (-1),
             sspi_mosi := pinOr cfg.sspiMosi (-1),
             sspi_miso := pinOr cfg.sspiMiso (-1) }
  else if 0 ≤ s.cs_gpio then
    { s with spi_clk  := pinOr (cfg.spiClk s.spi_bus) (-1),
             spi_mosi := pinOr (cfg.spiMosi s.spi_bus) (-1),
             spi_miso := pinOr (cfg.spiMiso s.spi_bus) (-1) }
  else s

/-- `MCP41_DetectPinsFromConfig` (percentage variant, lines 103–159):
reset, select the chip-select source by priority, read the bus pins. -/
def MCP41_DetectPinsFromConfig (cfg : PinConfig) (s : State) : State :=
  detectReadPins cfg (detectSelect cfg (detectReset s))

/-- `MCP41_ResolveBusAndPins` (percentage variant, lines 164–180). -/
def MCP41_ResolveBusAndPins (cfg : PinConfig) (s : State) :
    State × List Event :=
  let prev_cs := s.cs_gpio
  let prev_ss := s.use_sspi
  let s1 := MCP41_DetectPinsFromConfig cfg s
  if prev_cs ≠ s1.cs_gpio ∨ prev_ss ≠ s1.use_sspi then
    let s2 := { s1 with spi_inited := false }
    if 0 ≤ s2.cs_gpio then
      (s2, [Event.pinModeSet s2.cs_gpio PMode.output,
            Event.digitalWrite s2.cs_gpio Level.high])
    else
      (s2, [])
  else
    (s1, [])

/-- `MCP41_InitSpiIfNeeded` (percentage variant, lines 184–219; the ESP32
hardware-SPI branch is the one embedded, the ESP8266 branch differs only
in always calling the argumentless `SPI.begin()`). -/
def MCP41_InitSpiIfNeeded (cfg : PinConfig) (s : State) :
    State × List Event :=
  let r := MCP41_ResolveBusAndPins cfg s
  let s := r.1
  let ev := r.2
  if s.spi_inited ∨ s.cs_gpio < 0 then (s, ev)
  else if s.use_sspi then
    if s.sspi_clk < 0 ∨ s.sspi_mosi < 0 then
      (s, ev)   -- SSPI pins incomplete: error log, bus stays uninitialised
    else
      ({ s with spi_inited := true },
       ev ++ [Event.pinModeSet s.sspi_clk PMode.output,
              Event.pinModeSet s.sspi_mosi PMode.output,
              Event.digitalWrite s.sspi_clk Level.low] ++
         (if 0 ≤ s.sspi_miso then [Event.pinModeSet s.sspi_miso PMode.input]
          else []))
  else
    ({ s with spi_inited := true },
     ev ++ [if 0 ≤ s.spi_clk ∨ 0 ≤ s.spi_miso ∨ 0 ≤ s.spi_mosi then
              Event.spiBeginPins
                (if 0 ≤ s.spi_clk then some s.spi_clk else none)
                (if 0 ≤ s.spi_miso then some s.spi_miso else none)
                (if 0 ≤ s.spi_mosi then some s.spi_mosi else none)
                (-1)
            else Event.spiBeginDefault])

/-- `MCP41_SSPI_DELAY_US` (1). -/
def MCP41_SSPI_DELAY_US : Nat := 1

/-- `SSPI_Delay` (lines 223–225). -/
def SSPI_Delay : List Event :=
  if 0 < MCP41_SSPI_DELAY_US then [Event.delayMicroseconds MCP41_SSPI_DELAY_US]
  else []

/-- One iteration of the `SSPI_TransferByte` loop at bit index `i`:
`data & (1 << i)` on MOSI, then a clock pulse. -/
def SSPI_TransferBit (s : State) (data i : Nat) : List Event :=
  [Event.digitalWrite s.sspi_mosi
     (if data &&& (1 <<< i) ≠ 0 then Level.high else Level.low)] ++
  SSPI_Delay ++
  [Event.digitalWrite s.sspi_clk Level.high] ++
  SSPI_Delay ++
  [Event.digitalWrite s.sspi_clk Level.low]

/-- The `SSPI_TransferByte` loop for bit indices `n-1, …, 0`
(`for i = 7; i >= 0; --i` is the case `n = 8`). -/
def SSPI_TransferBits (s : State) (data : Nat) : Nat → List Event
  | 0 => []
  | n + 1 => SSPI_TransferBit s data n ++ SSPI_TransferBits s data n

/-- `SSPI_TransferByte` (lines 230–239): MODE0, MSB first. -/
def SSPI_TransferByte (s : State) (data : Nat) : List Event :=
  SSPI_TransferBits s data 8

/-- `MCP41_Select` (lines 95–98): drive CS `LOW` when enabling, `HIGH`
when disabling; no-op when no CS pin is resolved. -/
def MCP41_Select (s : State) (en : Bool) : List Event :=
  if s.cs_gpio < 0 then []
  else [Event.digitalWrite s.cs_gpio (if en then Level.low else Level.high)]

/-- `MCP41_Write` (percentage variant, lines 276–312).  Returns
(success, new state, emitted trace). -/
def MCP41_Write (cfg : PinConfig) (s : State) (percent : ℚ) :
    Bool × State × List Event :=
  if s.cs_gpio < 0 then (false, s, [])
  else
    let r := if s.spi_inited then (s, [])
             else MCP41_InitSpiIfNeeded cfg s
    let s1 := r.1
    let ev := r.2
    if ¬ s1.spi_inited then (false, s1, ev)
    else
      let value := MCP41_ConvertToValue percent
      if s1.use_sspi then
        (true, { s1 with last_value := percent },
         ev ++ MCP41_Select s1 true ++
           SSPI_TransferByte s1 MCP41_CMD_WRITE_WIPER ++
           SSPI_TransferByte s1 value ++
           MCP41_Select s1 false)
      else
        (true, { s1 with last_value := percent },
         ev ++ [Event.spiBeginTransaction] ++ MCP41_Select s1 true ++
           [Event.spiTransfer MCP41_CMD_WRITE_WIPER,
            Event.spiTransfer value] ++
           MCP41_Select s1 false ++ [Event.spiEndTransaction])

/-- `MCP41_UpdateBootRule` (lines 337–347): define
`Rule3 on System#Boot do MCP41 <value> endon`, then enable `Rule3`. -/
def MCP41_UpdateBootRule (value : ℚ) : List Event :=
  [Event.execCommand (HostCmd.ruleDefine MCP41_RULE_SLOT "System#Boot" "MCP41" value),
   Event.execCommand (HostCmd.ruleEnable MCP41_RULE_SLOT)]

/-- `MCP41_TrySetValue` (lines 317–333).  The "CS missing" response it
sets on failure is overwritten by the caller's error response, so only
success, state and trace are returned. -/
def MCP41_TrySetValue (cfg : PinConfig) (s : State) (val : ℚ) :
    Bool × State × List Event :=
  let val := if 100 < val then 100 else val
  let val := if val < 0 then 0 else val
  let r := MCP41_InitSpiIfNeeded cfg s
  let s1 := r.1
  let ev := r.2
  if s1.cs_gpio < 0 then (false, s1, ev)
  else
    let w := MCP41_Write cfg s1 val
    (w.1, w.2.1,
     ev ++ w.2.2 ++ (if w.1 then MCP41_UpdateBootRule val else []))

/-- The response left in the buffer by a command handler (last
`Response_P` wins). -/
inductive Resp where
  | infoMCP41 (last : ℚ) (cs : Int) (bus : String)
  | valueMCP41 (v : ℚ)
  | errorMCP41
  | getValue (v : ℚ)
  | csInfo (override effective : Int) (bus : String)
  | csInvalid
  | addInfo (previous add value : ℚ)
  | addMissing
  | addError
deriving DecidableEq

/-- Console mailbox: payload length, the `CharToFloat` parse of the data,
and the integer payload. -/
structure Mailbox where
  data_len  : Nat
  dataFloat : ℚ
  payload   : Int
deriving DecidableEq

/-- The bus label used in the `MCP41` info response. -/
def busLabel (s : State) : String :=
  if s.use_sspi then "SSPI" else if 0 ≤ s.cs_gpio then "SPI" else "unset"

/-- `Cmnd_MCP41` (percentage variant, lines 351–366). -/
def Cmnd_MCP41 (cfg : PinConfig) (s : State) (mb : Mailbox) :
    State × List Event × Resp :=
  if mb.data_len = 0 then
    (s, [], Resp.infoMCP41 s.last_value s.cs_gpio (busLabel s))
  else
    let r := MCP41_TrySetValue cfg s mb.dataFloat
    (r.2.1, r.2.2,
     if r.1 then Resp.valueMCP41 r.2.1.last_value else Resp.errorMCP41)

/-- `Cmnd_MCP41GET` (lines 368–370). -/
def Cmnd_MCP41GET (s : State) : State × List Event × Resp :=
  (s, [], Resp.getValue s.last_value)

/-- `Cmnd_MCP41CS` (lines 372–391). -/
def Cmnd_MCP41CS (cfg : PinConfig) (s : State) (mb : Mailbox) :
    State × List Event × Resp :=
  if mb.data_len = 0 then
    (s, [], Resp.csInfo s.cs_override s.cs_gpio
              (if s.use_sspi then "SSPI" else "SPI"))
  else
    let gpio := mb.payload
    if gpio < -1 ∨ 39 < gpio then
      (s, [], Resp.csInvalid)
    else
      let s1 := { s with cs_override := gpio, spi_inited := false }
      let r := MCP41_InitSpiIfNeeded cfg s1
      (r.1, r.2, Resp.csInfo r.1.cs_override r.1.cs_gpio
                   (if r.1.use_sspi then "SSPI" else "SPI"))

/-- `Cmnd_MCP41ADD` (lines 393–407). -/
def Cmnd_MCP41ADD (cfg : PinConfig) (s : State) (mb : Mailbox) :
    State × List Event × Resp :=
  if mb.data_len = 0 then
    (s, [], Resp.addMissing)
  else
    let previous := s.last_value
    let add := mb.dataFloat
    let r := MCP41_TrySetValue cfg s (s.last_value + add)
    (r.2.1, r.2.2,
     if r.1 then Resp.addInfo previous add r.2.1.last_value else Resp.addError)

/-- `kMCP41Commands` of the percentage variant: the `'|'`-separated
tokens of `"|GET|CS"`. -/
def kMCP41Commands : List String := ["", "GET", "CS"]

/-- Case-insensitive character-sequence match, as used by `strcasecmp`
and `GetCommandCode`. -/
def caseEqL (a b : List Char) : Bool :=
  a.map Char.toUpper == b.map Char.toUpper

/-- Case-insensitive string match. -/
def strCaseEq (a b : String) : Bool := caseEqL a.data b.data

/-- `GetCommandCode`: index of the needle among the command tokens,
case-insensitively (`none` models the return value `-1`). -/
def GetCommandCode (needle : String) (haystack : List String) : Option Nat :=
  haystack.findIdx? (fun t => strCaseEq needle t)

/-- Which handler a dispatch run ends at. -/
inductive Handler where
  | mcp41
  | mcp41get
  | mcp41cs
  | mcp41add
  | unserviced
  | notOurs
deriving DecidableEq

/-- `MCP41_CommandDispatcher` (percentage variant, lines 447–504),
abstracted to the handler it selects from the mailbox topic and index. -/
def MCP41_CommandDispatcher (topic : String) (index : Int) : Handler :=
  if caseEqL (topic.data.take 5) "MCP41".data then
    match GetCommandCode (topic.data.drop 5).asString kMCP41Commands with
    | some 0 => Handler.mcp41
    | some 1 => Handler.mcp41get
    | some 2 => Handler.mcp41cs
    | some 3 => Handler.mcp41add
    | _ => Handler.unserviced
  else if strCaseEq topic "MCP" ∧ index = 41 then
    Handler.mcp41
  else
    Handler.notOurs

end MCP41

namespace MCP41Raw

/-- `kMCP41Commands` of the raw variant: the `'|'`-separated tokens of
`"MCP41|MCP41GET|MCP41CS"`. -/
def kMCP41Commands : List String := ["MCP41", "MCP41GET", "MCP41CS"]

/-- The value-clamping prefix of the raw variant's `Cmnd_MCP41`
(lines 792–793): `uint32_t val = XdrvMailbox.payload; if (val > 255)
val = 255;`.  The `int32_t` payload is converted to `uint32_t` (two's
complement, modelled by the Euclidean remainder), then clamped from
above only. -/
def Cmnd_MCP41_val (payload : Int) : Nat :=
  let val : Nat := (payload % 2 ^ 32).toNat
  if 255 < val then 255 else val

end MCP41Raw

open MCP41

/-! ## Verification-layer definitions (concrete templates and
trace classifiers used by the theorems below) -/

/-- A GPIO template with no SPI role assigned. -/
def cfgNone : PinConfig :=
  { sspiCs := none, sspiClk := none, sspiMosi := none, sspiMiso := none,
    spiCs0 := none, spiClk0 := none, spiMosi0 := none, spiMiso0 := none,
    spiCs1 := none, spiClk1 := none, spiMosi1 := none, spiMiso1 := none }

/-- A software-SPI GPIO template (CS 5, CLK 14, MOSI 13). -/
def cfgSspi : PinConfig :=
  { cfgNone with sspiCs := some 5, sspiClk := some 14, sspiMosi := some 13 }

/-- A hardware-SPI bus-0 GPIO template (CS 15, CLK 18, MOSI 23). -/
def cfgHw0 : PinConfig :=
  { cfgNone with spiCs0 := some 15, spiClk0 := some 18, spiMosi0 := some 23 }

/-- A hardware-SPI bus-1 GPIO template (CS 12, CLK 25, MOSI 26). -/
def cfgHw1 : PinConfig :=
  { cfgNone with spiCs1 := some 12, spiClk1 := some 25, spiMosi1 := some 26 }

/-- Driver state with a runtime chip-select override of GPIO 7. -/
def stOverride : State := { initState with cs_override := 7 }

/-- A software-SPI driver state that is a fixpoint of the detector,
with the bus already initialised. -/
def stSspiInited : State :=
  { MCP41_DetectPinsFromConfig cfgSspi initState with spi_inited := true }

/-- Event classifier: `ExecuteCommand` calls into the host firmware. -/
def MCP41.Event.isExec : Event → Bool
  | Event.execCommand _ => true
  | _ => false

/-- A trace contains no `ExecuteCommand` call. -/
def MCP41.noExec (tr : List Event) : Bool := tr.all (fun e => ! e.isExec)

/-- A GPIO template whose only assignment is the software-SPI CS, so
software SPI is selected but its CLK/MOSI pins are missing. -/
def cfgSspiNoClk : PinConfig := { cfgNone with sspiCs := some 5 }

/-- The MSB-first code bits of a byte as the bit-bang loop tests them:
bits `n−1` down to `0` of `d`. -/
def msbBits (d : Nat) : Nat → List Bool
  | 0 => []
  | n + 1 => decide (d &&& (1 <<< n) ≠ 0) :: msbBits d n

/-- Value of an MSB-first bit string. -/
def bitsToNat (bs : List Bool) : Nat :=
  bs.foldl (fun a b => 2 * a + b.toNat) 0

/-- MODE0 decoder for a bit-banged trace: sample the last level driven
onto `mosi` at every rising edge driven onto `clk`. -/
def bbBits (clk mosi : Int) : List Event → Bool → List Bool
  | [], _ => []
  | Event.digitalWrite p l :: rest, cur =>
      if p == mosi then bbBits clk mosi rest (l == Level.high)
      else if p == clk && l == Level.high then cur :: bbBits clk mosi rest cur
      else bbBits clk mosi rest cur
  | _ :: rest, cur => bbBits clk mosi rest cur

/-- The bytes clocked out by hardware-SPI transfer events of a trace. -/
def hwBytes (tr : List Event) : List Nat :=
  tr.filterMap (fun e => match e with
    | Event.spiTransfer b => some b
    | _ => none)

/-- The levels driven onto a given pin by a trace. -/
def pinLevels (p : Int) (tr : List Event) : List Level :=
  tr.filterMap (fun e => match e with
    | Event.digitalWrite q l => if q = p then some l else none
    | _ => none)

/-! ## Helper lemmas -/

/-- On in-range codes `MCP41_ConvertToPercent` is the linear formula. -/
theorem convertToPercent_in_range (v : Nat) (hv : v ≤ 255) :
    MCP41_ConvertToPercent v = (v : ℚ) / 255 * 100 := by
  simp only [MCP41_ConvertToPercent, mcp41_raw_min, mcp41_raw_max]
  rw [if_neg (by omega), if_neg (by omega)]
  push_cast
  ring

/-- On in-range percentages `MCP41_ConvertToValue` is floored scaling. -/
theorem convertToValue_in_range (p : ℚ) (h0 : ¬ p < 0) (h1 : ¬ p > 100) :
    MCP41_ConvertToValue p = (⌊p * 255 / 100⌋).toNat := by
  simp only [MCP41_ConvertToValue, mcp41_raw_min, mcp41_raw_max]
  rw [if_neg h0, if_neg h1]
  push_cast
  ring_nf

/-- `detectReadPins` does not change the chip-select, bus mode, bus
index, override, init flag or last value. -/
theorem detectReadPins_preserves (cfg : PinConfig) (s : State) :
    (detectReadPins cfg s).cs_gpio = s.cs_gpio ∧
    (detectReadPins cfg s).use_sspi = s.use_sspi ∧
    (detectReadPins cfg s).spi_bus = s.spi_bus ∧
    (detectReadPins cfg s).cs_override = s.cs_override ∧
    (detectReadPins cfg s).spi_inited = s.spi_inited ∧
    (detectReadPins cfg s).last_value = s.last_value := by
  simp only [detectReadPins]
  split_ifs <;> simp

/-- The chip-select GPIO resolved by the detector. -/
theorem detect_cs_gpio (cfg : PinConfig) (s : State) :
    (MCP41_DetectPinsFromConfig cfg s).cs_gpio =
      (if 0 ≤ s.cs_override then s.cs_override
       else if cfg.sspiCs.isSome then pinOr cfg.sspiCs (-1)
       else if cfg.spiCs0.isSome then pinOr cfg.spiCs0 (-1)
       else if cfg.spiCs1.isSome then pinOr cfg.spiCs1 (-1)
       else -1) := by
  rw [MCP41_DetectPinsFromConfig, (detectReadPins_preserves _ _).1]
  simp only [detectSelect, detectReset]
  split_ifs <;> rfl

/-- The bus mode resolved by the detector. -/
theorem detect_use_sspi (cfg : PinConfig) (s : State) :
    (MCP41_DetectPinsFromConfig cfg s).use_sspi =
      (if 0 ≤ s.cs_override then false else cfg.sspiCs.isSome) := by
  rw [MCP41_DetectPinsFromConfig, (detectReadPins_preserves _ _).2.1]
  simp only [detectSelect, detectReset]
  split_ifs with h1 h2 h3 h4 <;> simp_all

/-- The hardware-SPI bus index resolved by the detector. -/
theorem detect_spi_bus (cfg : PinConfig) (s : State) :
    (MCP41_DetectPinsFromConfig cfg s).spi_bus =
      (if 0 ≤ s.cs_override then 0
       else if cfg.sspiCs.isSome then 0
       else if cfg.spiCs0.isSome then 0
       else if cfg.spiCs1.isSome then 1
       else 0) := by
  rw [MCP41_DetectPinsFromConfig, (detectReadPins_preserves _ _).2.2.1]
  simp only [detectSelect, detectReset]
  split_ifs <;> rfl

/-- The detector does not change the override, the init flag or the
last value. -/
theorem detect_preserves (cfg : PinConfig) (s : State) :
    (MCP41_DetectPinsFromConfig cfg s).cs_override = s.cs_override ∧
    (MCP41_DetectPinsFromConfig cfg s).spi_inited = s.spi_inited ∧
    (MCP41_DetectPinsFromConfig cfg s).last_value = s.last_value := by
  rw [MCP41_DetectPinsFromConfig,
      (detectReadPins_preserves _ _).2.2.2.1,
      (detectReadPins_preserves _ _).2.2.2.2.1,
      (detectReadPins_preserves _ _).2.2.2.2.2]
  simp only [detectSelect, detectReset]
  split_ifs <;> simp

/-! ## Claim theorems -/

/-- C4: in the percentage-capable variant the value mapper is the linear
map between raw wiper codes and percentages: `MCP41_ConvertToPercent`
sends `raw_min` to 0, `raw_max` to 100, and every in-range raw value `v`
to `(v - raw_min)/(raw_max - raw_min) * 100`; `MCP41_ConvertToValue`
inverts it on in-range codes, and clamps percentages below 0 to
`raw_min` and above 100 to `raw_max`. -/
theorem claim_C4_value_mapper :
    MCP41_ConvertToPercent mcp41_raw_min = 0 ∧
    MCP41_ConvertToPercent mcp41_raw_max = 100 ∧
    (∀ v : Nat, mcp41_raw_min ≤ v → v ≤ mcp41_raw_max →
       MCP41_ConvertToPercent v =
         ((v : ℚ) - (mcp41_raw_min : ℚ)) /
           ((mcp41_raw_max : ℚ) - (mcp41_raw_min : ℚ)) * 100) ∧
    (∀ v : Nat, mcp41_raw_min ≤ v → v ≤ mcp41_raw_max →
       MCP41_ConvertToValue (MCP41_ConvertToPercent v) = v) ∧
    (∀ p : ℚ, p < 0 → MCP41_ConvertToValue p = mcp41_raw_min) ∧
    (∀ p : ℚ, 100 < p → MCP41_ConvertToValue p = mcp41_raw_max) := by
  refine ⟨by norm_num [MCP41_ConvertToPercent, mcp41_raw_min, mcp41_raw_max],
          by norm_num [MCP41_ConvertToPercent, mcp41_raw_min, mcp41_raw_max],
          ?_, ?_, ?_, ?_⟩
  · intro v _ hv
    rw [convertToPercent_in_range v (by simpa [mcp41_raw_max] using hv)]
    simp only [mcp41_raw_min, mcp41_raw_max]
    push_cast
    ring
  · intro v _ hv
    simp only [mcp41_raw_max] at hv
    rw [convertToPercent_in_range v hv]
    have hv' : (v : ℚ) ≤ 255 := by exact_mod_cast hv
    have hnn : (0 : ℚ) ≤ (v : ℚ) / 255 * 100 := by positivity
    have hle : (v : ℚ) / 255 * 100 ≤ 100 := by
      rw [div_mul_eq_mul_div, div_le_iff₀ (by norm_num)]
      nlinarith
    rw [convertToValue_in_range _ (not_lt.mpr hnn)
          (by simp only [gt_iff_lt, not_lt]; exact hle)]
    have he : (v : ℚ) / 255 * 100 * 255 / 100 = (v : ℚ) := by
      field_simp
    rw [he, Int.floor_natCast]
    simp
  · intro p hp
    simp only [MCP41_ConvertToValue]
    rw [if_pos hp]
  · intro p hp
    simp only [MCP41_ConvertToValue]
    rw [if_neg (by linarith), if_pos hp]

/-- Witness for C4 at concrete inputs: raw code 51 maps to 20 %, the
round trip at 7 returns 7, −1 % clamps to 0 and 101 % clamps to 255. -/
theorem claim_C4_witness :
    MCP41_ConvertToPercent 51 = 20 ∧
    MCP41_ConvertToValue (MCP41_ConvertToPercent 7) = 7 ∧
    MCP41_ConvertToValue (-1) = mcp41_raw_min ∧
    MCP41_ConvertToValue 101 = mcp41_raw_max := by
  refine ⟨?_, claim_C4_value_mapper.2.2.2.1 7 (by norm_num [mcp41_raw_min])
              (by norm_num [mcp41_raw_max]),
          claim_C4_value_mapper.2.2.2.2.1 (-1) (by norm_num),
          claim_C4_value_mapper.2.2.2.2.2 101 (by norm_num)⟩
  rw [claim_C4_value_mapper.2.2.1 51 (by norm_num [mcp41_raw_min])
        (by norm_num [mcp41_raw_max])]
  norm_num [mcp41_raw_min, mcp41_raw_max]

/-- C1: the chip-select resolver follows the fixed priority
override ≥ 0 > software-SPI CS > hardware-SPI CS on bus 0 > bus 1,
falls back to −1 when no source is available, and is in bit-banged
mode exactly when the software-SPI branch was taken. -/
theorem claim_C1_cs_priority (cfg : PinConfig) (s : State) :
    ((0 ≤ s.cs_override →
       (MCP41_DetectPinsFromConfig cfg s).cs_gpio = s.cs_override ∧
       (MCP41_DetectPinsFromConfig cfg s).use_sspi = false) ∧
     (s.cs_override < 0 → ∀ p, cfg.sspiCs = some p →
       (MCP41_DetectPinsFromConfig cfg s).cs_gpio = int8OfNat p ∧
       (MCP41_DetectPinsFromConfig cfg s).use_sspi = true) ∧
     (s.cs_override < 0 → cfg.sspiCs = none → ∀ p, cfg.spiCs0 = some p →
       (MCP41_DetectPinsFromConfig cfg s).cs_gpio = int8OfNat p ∧
       (MCP41_DetectPinsFromConfig cfg s).use_sspi = false ∧
       (MCP41_DetectPinsFromConfig cfg s).spi_bus = 0) ∧
     (s.cs_override < 0 → cfg.sspiCs = none → cfg.spiCs0 = none →
       ∀ p, cfg.spiCs1 = some p →
       (MCP41_DetectPinsFromConfig cfg s).cs_gpio = int8OfNat p ∧
       (MCP41_DetectPinsFromConfig cfg s).use_sspi = false ∧
       (MCP41_DetectPinsFromConfig cfg s).spi_bus = 1) ∧
     (s.cs_override < 0 → cfg.sspiCs = none → cfg.spiCs0 = none →
       cfg.spiCs1 = none →
       (MCP41_DetectPinsFromConfig cfg s).cs_gpio = -1)) ∧
    ((MCP41_DetectPinsFromConfig cfg s).use_sspi = true ↔
       s.cs_override < 0 ∧ cfg.sspiCs.isSome = true) := by
  refine ⟨⟨?_, ?_, ?_, ?_, ?_⟩, ?_⟩
  · intro h
    rw [detect_cs_gpio, detect_use_sspi, if_pos h, if_pos h]
    exact ⟨rfl, rfl⟩
  · intro h p hp
    rw [detect_cs_gpio, detect_use_sspi, if_neg (not_le.mpr h),
        if_neg (not_le.mpr h)]
    simp [hp, pinOr]
  · intro h h1 p hp
    rw [detect_cs_gpio, detect_use_sspi, detect_spi_bus]
    simp [not_le.mpr h, h1, hp, pinOr]
  · intro h h1 h2 p hp
    rw [detect_cs_gpio, detect_use_sspi, detect_spi_bus]
    simp [not_le.mpr h, h1, h2, hp, pinOr]
  · intro h h1 h2 h3
    rw [detect_cs_gpio]
    simp [not_le.mpr h, h1, h2, h3]
  · rw [detect_use_sspi]
    rcases lt_or_le s.cs_override 0 with ho | ho
    · rw [if_neg (not_le.mpr ho)]
      simp [ho]
    · rw [if_pos ho]
      simp [not_lt.mpr ho]

/-- Witness for C1 at concrete inputs, one per priority source: the
override wins over a configured SSPI CS, then SSPI CS, then hardware
CS on bus 0, then bus 1, then unset. -/
theorem claim_C1_witness :
    (MCP41_DetectPinsFromConfig cfgSspi stOverride).cs_gpio = 7 ∧
    (MCP41_DetectPinsFromConfig cfgSspi initState).cs_gpio = int8OfNat 5 ∧
    (MCP41_DetectPinsFromConfig cfgSspi initState).use_sspi = true ∧
    (MCP41_DetectPinsFromConfig cfgHw0 initState).cs_gpio = int8OfNat 15 ∧
    (MCP41_DetectPinsFromConfig cfgHw0 initState).spi_bus = 0 ∧
    (MCP41_DetectPinsFromConfig cfgHw1 initState).cs_gpio = int8OfNat 12 ∧
    (MCP41_DetectPinsFromConfig cfgHw1 initState).spi_bus = 1 ∧
    (MCP41_DetectPinsFromConfig cfgNone initState).cs_gpio = -1 :=
  ⟨((claim_C1_cs_priority cfgSspi stOverride).1.1 (by decide)).1.trans rfl,
   ((claim_C1_cs_priority cfgSspi initState).1.2.1 (by decide) 5 rfl).1,
   ((claim_C1_cs_priority cfgSspi initState).1.2.1 (by decide) 5 rfl).2,
   ((claim_C1_cs_priority cfgHw0 initState).1.2.2.1 (by decide) rfl 15 rfl).1,
   ((claim_C1_cs_priority cfgHw0 initState).1.2.2.1 (by decide) rfl 15 rfl).2.2,
   ((claim_C1_cs_priority cfgHw1 initState).1.2.2.2.1 (by decide) rfl rfl 12 rfl).1,
   ((claim_C1_cs_priority cfgHw1 initState).1.2.2.2.1 (by decide) rfl rfl 12 rfl).2.2,
   (claim_C1_cs_priority cfgNone initState).1.2.2.2.2 (by decide) rfl rfl rfl⟩

/-- A `GetCommandCode` hit is an index into the command table. -/
theorem getCommandCode_lt (needle : String) (l : List String) (i : Nat)
    (h : GetCommandCode needle l = some i) : i < l.length := by
  rcases List.findIdx?_eq_some_iff_findIdx_eq.mp h with ⟨hl, _⟩
  exact hl

/-- C6: the dispatcher reaches exactly three handlers — the wiper
read/write command, the last-value read, and the chip-select
override.  `Cmnd_MCP41ADD` is unreachable (its token is absent from
the three-entry command table), each of the three handlers is
reachable, and the raw variant's table also has exactly three
entries. -/
theorem claim_C6_three_commands :
    (∀ (topic : String) (index : Int),
       MCP41_CommandDispatcher topic index = Handler.mcp41 ∨
       MCP41_CommandDispatcher topic index = Handler.mcp41get ∨
       MCP41_CommandDispatcher topic index = Handler.mcp41cs ∨
       MCP41_CommandDispatcher topic index = Handler.unserviced ∨
       MCP41_CommandDispatcher topic index = Handler.notOurs) ∧
    (∀ (topic : String) (index : Int),
       MCP41_CommandDispatcher topic index ≠ Handler.mcp41add) ∧
    MCP41_CommandDispatcher "MCP41" 1 = Handler.mcp41 ∧
    MCP41_CommandDispatcher "MCP41GET" 1 = Handler.mcp41get ∧
    MCP41_CommandDispatcher "MCP41CS" 1 = Handler.mcp41cs ∧
    MCP41_CommandDispatcher "MCP" 41 = Handler.mcp41 ∧
    kMCP41Commands.length = 3 ∧
    MCP41Raw.kMCP41Commands.length = 3 := by
  have hcase : ∀ (topic : String) (index : Int),
      MCP41_CommandDispatcher topic index = Handler.mcp41 ∨
      MCP41_CommandDispatcher topic index = Handler.mcp41get ∨
      MCP41_CommandDispatcher topic index = Handler.mcp41cs ∨
      MCP41_CommandDispatcher topic index = Handler.unserviced ∨
      MCP41_CommandDispatcher topic index = Handler.notOurs := by
    intro topic index
    unfold MCP41_CommandDispatcher
    split
    · rcases h : GetCommandCode (topic.data.drop 5).asString kMCP41Commands with
        _ | i
      · simp [h]
      · have hi : i < kMCP41Commands.length := getCommandCode_lt _ _ _ h
        simp only [kMCP41Commands, List.length_cons, List.length_nil] at hi
        interval_cases i <;> simp [h]
    · split
      · simp
      · simp
  refine ⟨hcase, ?_, by decide, by decide, by decide, by decide, rfl, rfl⟩
  intro topic index
  rcases hcase topic index with h | h | h | h | h <;> rw [h] <;> decide

/-- Witness for C6: the `MCP41ADD` topic does not reach the add
handler, while the bare `MCP41` topic reaches the wiper handler. -/
theorem claim_C6_witness :
    MCP41_CommandDispatcher "MCP41ADD" 1 ≠ Handler.mcp41add ∧
    MCP41_CommandDispatcher "MCP41" 1 = Handler.mcp41 :=
  ⟨claim_C6_three_commands.2.1 "MCP41ADD" 1,
   claim_C6_three_commands.2.2.1⟩

/-- `MCP41_ResolveBusAndPins` returns the detector's state, at most
clearing the init flag. -/
theorem resolve_state (cfg : PinConfig) (s : State) :
    (MCP41_ResolveBusAndPins cfg s).1 = MCP41_DetectPinsFromConfig cfg s ∨
    (MCP41_ResolveBusAndPins cfg s).1 =
      { MCP41_DetectPinsFromConfig cfg s with spi_inited := false } := by
  simp only [MCP41_ResolveBusAndPins]
  split_ifs <;> simp

/-- `MCP41_InitSpiIfNeeded` returns the resolver's state, at most
setting the init flag. -/
theorem init_state (cfg : PinConfig) (s : State) :
    (MCP41_InitSpiIfNeeded cfg s).1 = (MCP41_ResolveBusAndPins cfg s).1 ∨
    (MCP41_InitSpiIfNeeded cfg s).1 =
      { (MCP41_ResolveBusAndPins cfg s).1 with spi_inited := true } := by
  simp only [MCP41_InitSpiIfNeeded]
  split_ifs <;> simp

/-- After `MCP41_InitSpiIfNeeded`, every field except the init flag is
the detector's resolution; override and last value are untouched. -/
theorem init_fields (cfg : PinConfig) (s : State) :
    (MCP41_InitSpiIfNeeded cfg s).1.cs_gpio =
      (MCP41_DetectPinsFromConfig cfg s).cs_gpio ∧
    (MCP41_InitSpiIfNeeded cfg s).1.use_sspi =
      (MCP41_DetectPinsFromConfig cfg s).use_sspi ∧
    (MCP41_InitSpiIfNeeded cfg s).1.spi_bus =
      (MCP41_DetectPinsFromConfig cfg s).spi_bus ∧
    (MCP41_InitSpiIfNeeded cfg s).1.cs_override = s.cs_override ∧
    (MCP41_InitSpiIfNeeded cfg s).1.last_value = s.last_value := by
  have hd := detect_preserves cfg s
  rcases init_state cfg s with h | h <;> rcases resolve_state cfg s with h2 | h2 <;>
    simp [h, h2, hd.1, hd.2.2]

/-- C8: the wiper read (the `MCP41` command with an empty payload, or
`MCP41GET`) replies with the last set value together with
chip-select/bus information, emits no events (in particular no SPI
transfer), leaves the driver state unchanged, and in the initial
state — before any write ever succeeded — the reported value is 0. -/
theorem claim_C8_read_pure (cfg : PinConfig) (s : State) (mb : Mailbox)
    (h : mb.data_len = 0) :
    Cmnd_MCP41 cfg s mb =
      (s, [], Resp.infoMCP41 s.last_value s.cs_gpio (busLabel s)) ∧
    Cmnd_MCP41GET s = (s, [], Resp.getValue s.last_value) ∧
    initState.last_value = 0 := by
  refine ⟨?_, rfl, rfl⟩
  simp [Cmnd_MCP41, h]

/-- Witness for C8: reading in the initial state reports 0, an unset
chip-select and an unset bus, and changes nothing. -/
theorem claim_C8_witness :
    Cmnd_MCP41 cfgSspi initState ⟨0, 0, 0⟩ =
      (initState, [], Resp.infoMCP41 0 (-1) "unset") ∧
    Cmnd_MCP41GET initState = (initState, [], Resp.getValue 0) :=
  ⟨(claim_C8_read_pure cfgSspi initState ⟨0, 0, 0⟩ rfl).1,
   (claim_C8_read_pure cfgSspi initState ⟨0, 0, 0⟩ rfl).2.1⟩

/-- C10: the chip-select override command rejects every payload outside
−1‥39 atomically (state is returned untouched with an "invalid"
response); a payload within −1‥39 is stored as the override and the
pins are re-resolved, with a non-negative payload becoming the
effective chip-select in hardware mode and payload −1 returning the
resolution to the configured SSPI/SPI chain. -/
theorem claim_C10_cs_guard (cfg : PinConfig) (s : State) (mb : Mailbox)
    (hlen : mb.data_len ≠ 0) :
    ((mb.payload < -1 ∨ 39 < mb.payload) →
       Cmnd_MCP41CS cfg s mb = (s, [], Resp.csInvalid)) ∧
    (-1 ≤ mb.payload → mb.payload ≤ 39 →
       (Cmnd_MCP41CS cfg s mb).1.cs_override = mb.payload ∧
       (0 ≤ mb.payload →
          (Cmnd_MCP41CS cfg s mb).1.cs_gpio = mb.payload ∧
          (Cmnd_MCP41CS cfg s mb).1.use_sspi = false) ∧
       (mb.payload = -1 →
          (Cmnd_MCP41CS cfg s mb).1.cs_gpio =
            (if cfg.sspiCs.isSome then pinOr cfg.sspiCs (-1)
             else if cfg.spiCs0.isSome then pinOr cfg.spiCs0 (-1)
             else if cfg.spiCs1.isSome then pinOr cfg.spiCs1 (-1)
             else -1) ∧
          (Cmnd_MCP41CS cfg s mb).1.use_sspi = cfg.sspiCs.isSome)) := by
  constructor
  · intro h
    simp only [Cmnd_MCP41CS, if_neg hlen, if_pos h]
  · intro h1 h2
    have hv : ¬ (mb.payload < -1 ∨ 39 < mb.payload) := by omega
    have hstate : (Cmnd_MCP41CS cfg s mb).1 =
        (MCP41_InitSpiIfNeeded cfg
          { s with cs_override := mb.payload, spi_inited := false }).1 := by
      simp only [Cmnd_MCP41CS, if_neg hlen, if_neg hv]
    refine ⟨?_, ?_, ?_⟩
    · rw [hstate, (init_fields cfg _).2.2.2.1]
    · intro hp
      constructor
      · rw [hstate, (init_fields cfg _).1, detect_cs_gpio]
        simp [hp]
      · rw [hstate, (init_fields cfg _).2.1, detect_use_sspi]
        simp [hp]
    · intro hp
      constructor
      · rw [hstate, (init_fields cfg _).1, detect_cs_gpio]
        simp [hp]
      · rw [hstate, (init_fields cfg _).2.1, detect_use_sspi]
        simp [hp]

/-- Witness for C10: payload 99 is rejected without touching the state,
payload 7 becomes the override and the effective chip-select, and
payload −1 returns resolution to the configured SSPI pins. -/
theorem claim_C10_witness :
    Cmnd_MCP41CS cfgSspi initState ⟨1, 0, 99⟩ =
      (initState, [], Resp.csInvalid) ∧
    (Cmnd_MCP41CS cfgSspi initState ⟨1, 0, 7⟩).1.cs_override = 7 ∧
    (Cmnd_MCP41CS cfgSspi initState ⟨1, 0, 7⟩).1.cs_gpio = 7 ∧
    (Cmnd_MCP41CS cfgSspi initState ⟨1, 0, -1⟩).1.cs_gpio = int8OfNat 5 ∧
    (Cmnd_MCP41CS cfgSspi initState ⟨1, 0, -1⟩).1.use_sspi = true :=
  ⟨(claim_C10_cs_guard cfgSspi initState ⟨1, 0, 99⟩ (by decide)).1 (by decide),
   ((claim_C10_cs_guard cfgSspi initState ⟨1, 0, 7⟩ (by decide)).2
      (by decide) (by decide)).1,
   (((claim_C10_cs_guard cfgSspi initState ⟨1, 0, 7⟩ (by decide)).2
      (by decide) (by decide)).2.1 (by decide)).1,
   (((claim_C10_cs_guard cfgSspi initState ⟨1, 0, -1⟩ (by decide)).2
      (by decide) (by decide)).2.2 rfl).1,
   (((claim_C10_cs_guard cfgSspi initState ⟨1, 0, -1⟩ (by decide)).2
      (by decide) (by decide)).2.2 rfl).2⟩

/-- C7: bus initialisation is lazy and idempotent for an unchanged pin
resolution: when the bus is already initialised and re-resolving
yields the same chip-select GPIO and bus mode, `MCP41_InitSpiIfNeeded`
emits no events at all — no `SPI.begin`, no `pinMode` — and the init
flag stays `true`. -/
theorem claim_C7_lazy_idempotent_init (cfg : PinConfig) (s : State)
    (hinit : s.spi_inited = true)
    (hcs : (MCP41_DetectPinsFromConfig cfg s).cs_gpio = s.cs_gpio)
    (hss : (MCP41_DetectPinsFromConfig cfg s).use_sspi = s.use_sspi) :
    (MCP41_InitSpiIfNeeded cfg s).1.spi_inited = true ∧
    (MCP41_InitSpiIfNeeded cfg s).2 = [] := by
  have hres : MCP41_ResolveBusAndPins cfg s =
      (MCP41_DetectPinsFromConfig cfg s, []) := by
    simp only [MCP41_ResolveBusAndPins]
    rw [if_neg]
    push_neg
    exact ⟨hcs.symm, hss.symm⟩
  have hd : (MCP41_DetectPinsFromConfig cfg s).spi_inited = true :=
    (detect_preserves cfg s).2.1.trans hinit
  simp only [MCP41_InitSpiIfNeeded, hres]
  rw [if_pos (Or.inl hd)]
  exact ⟨hd, rfl⟩

/-- Witness for C7: with SSPI resolved and the bus initialised, a
repeated `MCP41_InitSpiIfNeeded` emits nothing and keeps the flag. -/
theorem claim_C7_witness :
    (MCP41_InitSpiIfNeeded cfgSspi stSspiInited).1.spi_inited = true ∧
    (MCP41_InitSpiIfNeeded cfgSspi stSspiInited).2 = [] :=
  claim_C7_lazy_idempotent_init cfgSspi stSspiInited (by decide) (by decide)
    (by decide)


/-- The pin resolver never calls into the host command executor. -/
theorem resolve_no_exec (cfg : PinConfig) (s : State) :
    noExec (MCP41_ResolveBusAndPins cfg s).2 = true := by
  simp only [MCP41_ResolveBusAndPins]
  split_ifs <;> rfl

/-- The bus initialiser never calls into the host command executor. -/
theorem init_no_exec (cfg : PinConfig) (s : State) :
    noExec (MCP41_InitSpiIfNeeded cfg s).2 = true := by
  have hres := resolve_no_exec cfg s
  simp only [noExec, List.all_eq_true] at hres ⊢
  simp only [MCP41_InitSpiIfNeeded]
  split_ifs <;> intro e he <;>
    simp only [List.mem_append, List.mem_cons, List.not_mem_nil, or_false] at he <;>
    casesm* _ ∨ _ <;>
    first
      | exact hres e (by assumption)
      | (subst_vars; rfl)

/-- `MCP41_Select` with a resolved chip-select is one `digitalWrite`. -/
theorem select_eq (s : State) (h : ¬ s.cs_gpio < 0) (b : Bool) :
    MCP41_Select s b =
      [Event.digitalWrite s.cs_gpio (if b then Level.low else Level.high)] := by
  simp [MCP41_Select, h]

/-- The bit-bang loop never calls into the host command executor. -/
theorem transferBits_no_exec (s : State) (d : Nat) :
    ∀ n, noExec (SSPI_TransferBits s d n) = true := by
  intro n
  induction n with
  | zero => rfl
  | succ k ih =>
    simp only [SSPI_TransferBits, noExec, List.all_append, Bool.and_eq_true]
      at ih ⊢
    refine ⟨?_, ih⟩
    rfl

/-- If the bus was uninitialised and `MCP41_InitSpiIfNeeded` ends with
the flag set, a chip-select pin was resolved. -/
theorem init_inited_cs (cfg : PinConfig) (s : State)
    (hs : s.spi_inited = false)
    (h : (MCP41_InitSpiIfNeeded cfg s).1.spi_inited = true) :
    0 ≤ (MCP41_InitSpiIfNeeded cfg s).1.cs_gpio := by
  have hres : (MCP41_ResolveBusAndPins cfg s).1.spi_inited = false := by
    rcases resolve_state cfg s with h2 | h2 <;>
      simp [h2, (detect_preserves cfg s).2.1, hs]
  simp only [MCP41_InitSpiIfNeeded] at h ⊢
  split_ifs at h ⊢ <;> simp_all

/-- Full case analysis of `MCP41_Write`: either it fails before any
bus traffic and preserves the last value, or it succeeds and emits the
lazy-init events followed by the two-byte chip-select-framed burst. -/
theorem write_cases (cfg : PinConfig) (s : State) (p : ℚ) :
    ((MCP41_Write cfg s p).1 = false ∧
      (MCP41_Write cfg s p).2.1.last_value = s.last_value ∧
      noExec (MCP41_Write cfg s p).2.2 = true) ∨
    ((MCP41_Write cfg s p).1 = true ∧
      ∃ s1 : State,
        s1 = (if s.spi_inited then s else (MCP41_InitSpiIfNeeded cfg s).1) ∧
        0 ≤ s1.cs_gpio ∧ s1.spi_inited = true ∧
        s1.last_value = s.last_value ∧
        (MCP41_Write cfg s p).2.1 = { s1 with last_value := p } ∧
        (MCP41_Write cfg s p).2.2 =
          (if s.spi_inited then [] else (MCP41_InitSpiIfNeeded cfg s).2) ++
          (if s1.use_sspi then
             [Event.digitalWrite s1.cs_gpio Level.low] ++
             SSPI_TransferByte s1 MCP41_CMD_WRITE_WIPER ++
             SSPI_TransferByte s1 (MCP41_ConvertToValue p) ++
             [Event.digitalWrite s1.cs_gpio Level.high]
           else
             [Event.spiBeginTransaction,
              Event.digitalWrite s1.cs_gpio Level.low,
              Event.spiTransfer MCP41_CMD_WRITE_WIPER,
              Event.spiTransfer (MCP41_ConvertToValue p),
              Event.digitalWrite s1.cs_gpio Level.high,
              Event.spiEndTransaction])) := by
  by_cases hcs : s.cs_gpio < 0
  · left
    refine ⟨?_, ?_, ?_⟩ <;> simp [MCP41_Write, hcs, noExec]
  · by_cases hi : s.spi_inited
    · right
      refine ⟨?_, s, by simp [hi], not_lt.mp hcs, hi, rfl, ?_, ?_⟩ <;>
        by_cases hss : s.use_sspi <;>
          simp [MCP41_Write, hcs, hi, hss, select_eq s hcs, SSPI_TransferByte]
    · by_cases hin : (MCP41_InitSpiIfNeeded cfg s).1.spi_inited
      · right
        have hcs1 := init_inited_cs cfg s (Bool.eq_false_iff.mpr hi) hin
        refine ⟨?_, (MCP41_InitSpiIfNeeded cfg s).1, by simp [hi],
                hcs1, hin, (init_fields cfg s).2.2.2.2, ?_, ?_⟩ <;>
          by_cases hss : (MCP41_InitSpiIfNeeded cfg s).1.use_sspi <;>
            simp [MCP41_Write, hcs, hi, hin, hss,
                  select_eq _ (not_lt.mpr hcs1), SSPI_TransferByte]
      · left
        refine ⟨?_, ?_, ?_⟩ <;>
          simp [MCP41_Write, hcs, hi, hin, (init_fields cfg s).2.2.2.2,
                init_no_exec]

/-- `MCP41_Write` never calls into the host command executor. -/
theorem write_no_exec (cfg : PinConfig) (s : State) (p : ℚ) :
    noExec (MCP41_Write cfg s p).2.2 = true := by
  rcases write_cases cfg s p with ⟨_, _, h⟩ | ⟨_, s1, _, _, _, _, _, htr⟩
  · exact h
  · have hinit := init_no_exec cfg s
    have ht1 := transferBits_no_exec s1 MCP41_CMD_WRITE_WIPER 8
    have ht2 := transferBits_no_exec s1 (MCP41_ConvertToValue p) 8
    rw [htr]
    simp only [noExec, List.all_append, Bool.and_eq_true, SSPI_TransferByte,
               List.all_cons, List.all_nil, Bool.and_true] at hinit ht1 ht2 ⊢
    split_ifs <;> simp_all [Event.isExec]

/-- Case analysis of `MCP41_TrySetValue`: the requested value is
clamped into 0‥100 before the transfer; on success the clamped value
becomes the last value and the boot-rule commands are appended after a
command-free prefix; on failure nothing is executed on the host and
the last value survives. -/
theorem trySet_cases (cfg : PinConfig) (s : State) (val : ℚ) :
    ((MCP41_TrySetValue cfg s val).1 = false ∧
      (MCP41_TrySetValue cfg s val).2.1.last_value = s.last_value ∧
      noExec (MCP41_TrySetValue cfg s val).2.2 = true) ∨
    ((MCP41_TrySetValue cfg s val).1 = true ∧
      (MCP41_TrySetValue cfg s val).2.1.last_value =
        (if (if 100 < val then (100 : ℚ) else val) < 0 then 0
         else if 100 < val then 100 else val) ∧
      ∃ pre, noExec pre = true ∧
        (MCP41_TrySetValue cfg s val).2.2 =
          pre ++ MCP41_UpdateBootRule
                   (MCP41_TrySetValue cfg s val).2.1.last_value) := by
  have hlast := (init_fields cfg s).2.2.2.2
  by_cases hcs : (MCP41_InitSpiIfNeeded cfg s).1.cs_gpio < 0
  · left
    simp only [MCP41_TrySetValue, if_pos hcs]
    exact ⟨trivial, hlast, init_no_exec cfg s⟩
  · rcases write_cases cfg (MCP41_InitSpiIfNeeded cfg s).1
        (if (if 100 < val then (100 : ℚ) else val) < 0 then 0
         else if 100 < val then 100 else val) with
      ⟨hf, hl, hne⟩ | ⟨hsuc, s1, _, _, _, _, hstate, _⟩
    · left
      refine ⟨?_, ?_, ?_⟩ <;>
        simp only [MCP41_TrySetValue, if_neg hcs, hf, Bool.false_eq_true,
                   if_false, List.append_nil]
      · exact hl.trans hlast
      · simp only [noExec, List.all_append, Bool.and_eq_true]
        have h1 := init_no_exec cfg s
        have h2 := hne
        simp only [noExec] at h1 h2
        exact ⟨h1, h2⟩
    · right
      have hlv : (MCP41_TrySetValue cfg s val).2.1.last_value =
          (if (if 100 < val then (100 : ℚ) else val) < 0 then 0
           else if 100 < val then 100 else val) := by
        simp only [MCP41_TrySetValue, if_neg hcs, hstate]
      refine ⟨?_, hlv, ?_⟩
      · simp only [MCP41_TrySetValue, if_neg hcs, hsuc]
      · refine ⟨(MCP41_InitSpiIfNeeded cfg s).2 ++
          (MCP41_Write cfg (MCP41_InitSpiIfNeeded cfg s).1
            (if (if 100 < val then (100 : ℚ) else val) < 0 then 0
             else if 100 < val then 100 else val)).2.2, ?_, ?_⟩
        · simp only [noExec, List.all_append, Bool.and_eq_true]
          have h1 := init_no_exec cfg s
          have h2 := write_no_exec cfg (MCP41_InitSpiIfNeeded cfg s).1
            (if (if 100 < val then (100 : ℚ) else val) < 0 then 0
             else if 100 < val then 100 else val)
          simp only [noExec] at h1 h2
          exact ⟨h1, h2⟩
        · rw [hlv]
          simp only [MCP41_TrySetValue, if_neg hcs, hsuc, if_true,
                     List.append_assoc]

/-- C5: after every successful wiper write the driver defines and then
enables the boot-replay rule in slot `MCP41_RULE_SLOT` (3, i.e. Rule3
by default), of the form `on System#Boot do MCP41 <value>` carrying
exactly the value just written (the new last value); when the write
fails no host command is executed at all, so the rule is untouched. -/
theorem claim_C5_boot_rule (cfg : PinConfig) (s : State) (val : ℚ) :
    ((MCP41_TrySetValue cfg s val).1 = true →
       ∃ pre, noExec pre = true ∧
         (MCP41_TrySetValue cfg s val).2.2 =
           pre ++ [Event.execCommand (HostCmd.ruleDefine MCP41_RULE_SLOT
                     "System#Boot" "MCP41"
                     (MCP41_TrySetValue cfg s val).2.1.last_value),
                   Event.execCommand (HostCmd.ruleEnable MCP41_RULE_SLOT)]) ∧
    ((MCP41_TrySetValue cfg s val).1 = false →
       noExec (MCP41_TrySetValue cfg s val).2.2 = true) := by
  rcases trySet_cases cfg s val with ⟨hf, _, hne⟩ | ⟨ht, _, pre, hpre, htr⟩
  · refine ⟨fun h => absurd h (by simp [hf]), fun _ => hne⟩
  · refine ⟨fun _ => ⟨pre, hpre, ?_⟩, fun h => absurd ht (by simp [h])⟩
    simpa [MCP41_UpdateBootRule] using htr

/-- Witness for C5: a successful write through the SSPI template ends
with the rule-define and rule-enable commands, and a failed write (no
chip-select configured) executes no host command. -/
theorem claim_C5_witness :
    (∃ pre, noExec pre = true ∧
       (MCP41_TrySetValue cfgSspi initState 50).2.2 =
         pre ++ [Event.execCommand (HostCmd.ruleDefine MCP41_RULE_SLOT
                   "System#Boot" "MCP41"
                   (MCP41_TrySetValue cfgSspi initState 50).2.1.last_value),
                 Event.execCommand (HostCmd.ruleEnable MCP41_RULE_SLOT)]) ∧
    noExec (MCP41_TrySetValue cfgNone initState 50).2.2 = true :=
  ⟨(claim_C5_boot_rule cfgSspi initState 50).1 (by decide),
   (claim_C5_boot_rule cfgNone initState 50).2 (by decide)⟩

/-- C9: a failed set request is atomic: the `MCP41` command replies
with the error response, the persisted last value keeps its previous
value, and no host command is executed, so the boot rule is not
rewritten.  Failure covers both the unresolved chip-select and the
uninitialisable bus. -/
theorem claim_C9_failure_atomic (cfg : PinConfig) (s : State) (mb : Mailbox)
    (hlen : mb.data_len ≠ 0)
    (hfail : (MCP41_TrySetValue cfg s mb.dataFloat).1 = false) :
    (Cmnd_MCP41 cfg s mb).2.2 = Resp.errorMCP41 ∧
    (Cmnd_MCP41 cfg s mb).1.last_value = s.last_value ∧
    noExec (Cmnd_MCP41 cfg s mb).2.1 = true := by
  rcases trySet_cases cfg s mb.dataFloat with ⟨_, hl, hne⟩ | ⟨ht, _, _⟩
  · refine ⟨?_, ?_, ?_⟩ <;> simp [Cmnd_MCP41, hlen, hfail, hl, hne]
  · exact absurd ht (by simp [hfail])

/-- Witness for C9 at two concrete failures: with no chip-select
configured, and with software SPI selected but its CLK/MOSI missing,
the command replies with the error, the last value stays 0 and nothing
is executed on the host. -/
theorem claim_C9_witness :
    ((Cmnd_MCP41 cfgNone initState ⟨2, 50, 50⟩).2.2 = Resp.errorMCP41 ∧
     (Cmnd_MCP41 cfgNone initState ⟨2, 50, 50⟩).1.last_value = 0 ∧
     noExec (Cmnd_MCP41 cfgNone initState ⟨2, 50, 50⟩).2.1 = true) ∧
    ((Cmnd_MCP41 cfgSspiNoClk initState ⟨2, 50, 50⟩).2.2 = Resp.errorMCP41 ∧
     (Cmnd_MCP41 cfgSspiNoClk initState ⟨2, 50, 50⟩).1.last_value = 0 ∧
     noExec (Cmnd_MCP41 cfgSspiNoClk initState ⟨2, 50, 50⟩).2.1 = true) := by
  have h1 := claim_C9_failure_atomic cfgNone initState ⟨2, 50, 50⟩
    (by decide) (by decide)
  have h2 := claim_C9_failure_atomic cfgSspiNoClk initState ⟨2, 50, 50⟩
    (by decide) (by decide)
  exact ⟨⟨h1.1, h1.2.1.trans rfl, h1.2.2⟩, ⟨h2.1, h2.2.1.trans rfl, h2.2.2⟩⟩

/-- The raw code derived from any percentage never exceeds 255. -/
theorem convertToValue_le (p : ℚ) : MCP41_ConvertToValue p ≤ 255 := by
  simp only [MCP41_ConvertToValue, mcp41_raw_min, mcp41_raw_max]
  split_ifs with h1 h2
  · omega
  · exact le_refl _
  · rw [not_lt] at h1
    rw [gt_iff_lt, not_lt] at h2
    have hle : p * ((255 : ℚ) - 0) / 100 ≤ 255 := by nlinarith
    have hfl : ⌊p * (((255 : Nat) : ℚ) - ((0 : Nat) : ℚ)) / 100⌋ ≤ 255 := by
      calc ⌊p * (((255 : Nat) : ℚ) - ((0 : Nat) : ℚ)) / 100⌋
          ≤ ⌊(255 : ℚ)⌋ := Int.floor_le_floor (by push_cast; linarith)
        _ = 255 := by norm_num
    omega

/-- Counterexample to C3 as stated: in the raw variant the
below-minimum payload −1 is not mapped to the minimum 0; the
`uint32_t val = XdrvMailbox.payload` conversion wraps it to 4294967295,
which the upper clamp then maps to the maximum 255. -/
theorem claim_C3_counterexample :
    (-1 : Int) < 0 ∧ MCP41Raw.Cmnd_MCP41_val (-1) = 255 ∧
    MCP41Raw.Cmnd_MCP41_val (-1) ≠ 0 :=
  ⟨by decide, by decide, by decide⟩

/-- C3 (amended): every value actually transferred stays within the
allowed range.  The percentage variant clamps the request into
0.0‥100.0 — below-minimum inputs to the minimum, above-maximum inputs
to the maximum — and the raw code derived from the stored value is
within 0‥255.  The raw variant also always writes within 0‥255 and
maps above-maximum inputs to 255, but a below-minimum (negative)
payload is converted to `uint32_t` first and therefore maps to the
maximum 255 as well, not to the minimum. -/
theorem claim_C3_range_validation (cfg : PinConfig) (s : State) (val : ℚ) :
    ((MCP41_TrySetValue cfg s val).1 = true →
       0 ≤ (MCP41_TrySetValue cfg s val).2.1.last_value ∧
       (MCP41_TrySetValue cfg s val).2.1.last_value ≤ 100 ∧
       (val < 0 → (MCP41_TrySetValue cfg s val).2.1.last_value = 0) ∧
       (100 < val → (MCP41_TrySetValue cfg s val).2.1.last_value = 100) ∧
       MCP41_ConvertToValue (MCP41_TrySetValue cfg s val).2.1.last_value
         ≤ 255) ∧
    (∀ payload : Int, -(2 ^ 31) ≤ payload → payload < 2 ^ 31 →
       MCP41Raw.Cmnd_MCP41_val payload ≤ 255 ∧
       (255 < payload → MCP41Raw.Cmnd_MCP41_val payload = 255) ∧
       (payload < 0 → MCP41Raw.Cmnd_MCP41_val payload = 255) ∧
       (0 ≤ payload → payload ≤ 255 →
          MCP41Raw.Cmnd_MCP41_val payload = payload.toNat)) := by
  constructor
  · intro hsuc
    rcases trySet_cases cfg s val with ⟨hf, _, _⟩ | ⟨_, hlv, _⟩
    · rw [hsuc] at hf
      cases hf
    · rw [hlv]
      refine ⟨?_, ?_, fun hv => ?_, fun hv => ?_, convertToValue_le _⟩ <;>
        split_ifs <;> first | rfl | linarith
  · intro payload h1 h2
    refine ⟨?_, fun h => ?_, fun h => ?_, fun ha hb => ?_⟩ <;>
      simp only [MCP41Raw.Cmnd_MCP41_val] <;> split_ifs <;> omega

/-- Witness for C3 (amended) at concrete inputs: 150 % clamps to 100,
−5 % clamps to 0 in the percentage variant; in the raw variant 300
clamps to 255, the negative input −7 is written as 255 (not 0), and 40
passes through. -/
theorem claim_C3_witness :
    (MCP41_TrySetValue cfgSspi initState 150).2.1.last_value = 100 ∧
    (MCP41_TrySetValue cfgSspi initState (-5)).2.1.last_value = 0 ∧
    MCP41Raw.Cmnd_MCP41_val 300 = 255 ∧
    MCP41Raw.Cmnd_MCP41_val (-7) = 255 ∧
    MCP41Raw.Cmnd_MCP41_val 40 = 40 := by
  have h1 := (claim_C3_range_validation cfgSspi initState 150).1 (by decide)
  have h2 := (claim_C3_range_validation cfgSspi initState (-5)).1 (by decide)
  have h3 := (claim_C3_range_validation cfgSspi initState 0).2 300
    (by decide) (by decide)
  have h4 := (claim_C3_range_validation cfgSspi initState 0).2 (-7)
    (by decide) (by decide)
  have h5 := (claim_C3_range_validation cfgSspi initState 0).2 40
    (by decide) (by decide)
  exact ⟨h1.2.2.2.1 (by norm_num), h2.2.2.1 (by norm_num),
         h3.2.1 (by decide), h4.2.2.1 (by decide),
         (h5.2.2.2 (by decide) (by decide)).trans rfl⟩

set_option maxRecDepth 4096 in
/-- An MSB-first 8-bit string decodes back to its byte. -/
theorem bitsToNat_msbBits : ∀ d < 256, bitsToNat (msbBits d 8) = d := by
  decide

/-- The bit-bang loop writes no levels onto a pin distinct from its
clock and data pins. -/
theorem pinLevels_transferBits (s1 : State) (cs : Int) (d : Nat)
    (hclk : cs ≠ s1.sspi_clk) (hmosi : cs ≠ s1.sspi_mosi) :
    ∀ n, pinLevels cs (SSPI_TransferBits s1 d n) = [] := by
  intro n
  induction n with
  | zero => rfl
  | succ k ih =>
    simp only [SSPI_TransferBits, pinLevels, List.filterMap_append] at ih ⊢
    rw [ih, List.append_nil]
    simp [SSPI_TransferBit, SSPI_Delay, MCP41_SSPI_DELAY_US,
          Ne.symm hclk, Ne.symm hmosi]

/-- A trace with no rising clock edge decodes to no bits. -/
theorem bbBits_eq_nil (clk mosi : Int) :
    ∀ (tr : List Event) (cur : Bool),
      Event.digitalWrite clk Level.high ∉ tr →
      bbBits clk mosi tr cur = [] := by
  intro tr
  induction tr with
  | nil => intro cur _; rfl
  | cons e rest ih =>
    intro cur hmem
    rw [List.mem_cons, not_or] at hmem
    cases e with
    | digitalWrite p l =>
      simp only [bbBits]
      split_ifs with h1 h2
      · exact ih _ hmem.2
      · exfalso
        rw [Bool.and_eq_true, beq_iff_eq, beq_iff_eq] at h2
        exact hmem.1 (by rw [h2.1, h2.2])
      · exact ih _ hmem.2
    | pinModeSet p m => exact ih _ hmem.2
    | delayMicroseconds us => exact ih _ hmem.2
    | spiBeginPins a b c e => exact ih _ hmem.2
    | spiBeginDefault => exact ih _ hmem.2
    | spiBeginTransaction => exact ih _ hmem.2
    | spiTransfer b => exact ih _ hmem.2
    | spiEndTransaction => exact ih _ hmem.2
    | execCommand c => exact ih _ hmem.2

/-- When the resolved chip-select differs from a pin, the initialiser
never drives that pin high. -/
theorem init_no_clk_high (cfg : PinConfig) (s : State) (clk : Int)
    (hcs : (MCP41_DetectPinsFromConfig cfg s).cs_gpio ≠ clk) :
    Event.digitalWrite clk Level.high ∉ (MCP41_InitSpiIfNeeded cfg s).2 := by
  have hres : Event.digitalWrite clk Level.high ∉
      (MCP41_ResolveBusAndPins cfg s).2 := by
    simp only [MCP41_ResolveBusAndPins]
    split_ifs <;> simp_all <;> intro h <;> exact hcs h.symm
  simp only [MCP41_InitSpiIfNeeded]
  split_ifs <;> intro hmem <;>
    simp only [List.mem_append, List.mem_cons, List.not_mem_nil, or_false]
      at hmem <;>
    casesm* _ ∨ _ <;>
    first
      | exact hres (by assumption)
      | simp_all

/-- The resolver and initialiser clock no bytes out on hardware SPI. -/
theorem init_hwBytes (cfg : PinConfig) (s : State) :
    hwBytes (MCP41_InitSpiIfNeeded cfg s).2 = [] := by
  have hres : ∀ e ∈ (MCP41_ResolveBusAndPins cfg s).2,
      (fun e => match e with
        | Event.spiTransfer b => some b
        | _ => none) e = (none : Option Nat) := by
    simp only [MCP41_ResolveBusAndPins]
    split_ifs <;> intro e he <;>
      simp only [List.mem_cons, List.not_mem_nil, or_false] at he <;>
      casesm* _ ∨ _ <;>
      first
        | cases he
        | (subst_vars; rfl)
  rw [hwBytes, List.filterMap_eq_nil]
  simp only [MCP41_InitSpiIfNeeded]
  split_ifs <;> intro e he <;>
    simp only [List.mem_append, List.mem_cons, List.not_mem_nil, or_false]
      at he <;>
    casesm* _ ∨ _ <;>
    first
      | exact hres e (by assumption)
      | (subst_vars; rfl)

/-- Decoding one bit-bang block: the level driven on MOSI is sampled
at the single rising clock edge. -/
theorem bbBits_block (s1 : State) (h : s1.sspi_clk ≠ s1.sspi_mosi)
    (d i : Nat) (rest : List Event) (cur : Bool) :
    bbBits s1.sspi_clk s1.sspi_mosi (SSPI_TransferBit s1 d i ++ rest) cur =
      decide (d &&& (1 <<< i) ≠ 0) ::
        bbBits s1.sspi_clk s1.sspi_mosi rest
          (decide (d &&& (1 <<< i) ≠ 0)) := by
  by_cases hb : d &&& (1 <<< i) ≠ 0 <;>
    simp [SSPI_TransferBit, SSPI_Delay, MCP41_SSPI_DELAY_US, bbBits, h, hb,
          show (Level.low == Level.high) = false from rfl]

/-- Decoding the whole bit-bang loop: with distinct clock and data
pins, the trace for bits `n…0` decodes to exactly the MSB-first code
bits of the byte, leaving bit 0 as the last driven data level. -/
theorem bbBits_transferBits (s1 : State)
    (h : s1.sspi_clk ≠ s1.sspi_mosi) (d : Nat) :
    ∀ (n : Nat) (rest : List Event) (cur : Bool),
      bbBits s1.sspi_clk s1.sspi_mosi
        (SSPI_TransferBits s1 d (n + 1) ++ rest) cur =
      msbBits d (n + 1) ++
        bbBits s1.sspi_clk s1.sspi_mosi rest (decide (d &&& 1 ≠ 0)) := by
  intro n
  induction n with
  | zero =>
    intro rest cur
    show bbBits s1.sspi_clk s1.sspi_mosi
        ((SSPI_TransferBit s1 d 0 ++ SSPI_TransferBits s1 d 0) ++ rest) cur = _
    rw [show SSPI_TransferBits s1 d 0 = [] from rfl, List.append_nil,
        bbBits_block s1 h d 0 rest cur]
    simp [msbBits, Nat.shiftLeft_zero]
  | succ k ih =>
    intro rest cur
    show bbBits s1.sspi_clk s1.sspi_mosi
        ((SSPI_TransferBit s1 d (k + 1) ++ SSPI_TransferBits s1 d (k + 1))
          ++ rest) cur = _
    rw [List.append_assoc, bbBits_block s1 h d (k + 1) _ cur, ih]
    simp [msbBits]

/-- `pinLevels` distributes over trace concatenation. -/
theorem pinLevels_append (p : Int) (a b : List Event) :
    pinLevels p (a ++ b) = pinLevels p a ++ pinLevels p b := by
  simp [pinLevels]

/-- Decoding one whole byte of the bit-bang loop, with continuation. -/
theorem bbBits_transferByte_append (s1 : State)
    (h : s1.sspi_clk ≠ s1.sspi_mosi) (d : Nat)
    (rest : List Event) (cur : Bool) :
    bbBits s1.sspi_clk s1.sspi_mosi (SSPI_TransferByte s1 d ++ rest) cur =
      msbBits d 8 ++
        bbBits s1.sspi_clk s1.sspi_mosi rest (decide (d &&& 1 ≠ 0)) := by
  have key := bbBits_transferBits s1 h d 7 rest cur
  norm_num at key
  simpa [SSPI_TransferByte] using key

/-- C2: every successful write sends exactly two bytes — the opcode
`0x11` and then the data byte — framed by chip-select: CS is driven
LOW before the opcode and HIGH after the data byte, in both the
bit-banged and the hardware-SPI path.  The lazy-init prefix `pre`
clocks out no hardware bytes and (for distinct pins) no bit-banged
bits; between the CS edges the bit-banged trace decodes, MSB first, to
exactly the 16 bits of opcode-then-data with no other CS activity,
and the hardware trace transfers exactly opcode then data. -/
theorem claim_C2_two_byte_frame (cfg : PinConfig) (s : State) (p : ℚ)
    (hok : (MCP41_Write cfg s p).1 = true) :
    ∃ (s1 : State) (pre : List Event),
      0 ≤ s1.cs_gpio ∧
      hwBytes pre = [] ∧
      bitsToNat (msbBits MCP41_CMD_WRITE_WIPER 8) = MCP41_CMD_WRITE_WIPER ∧
      bitsToNat (msbBits (MCP41_ConvertToValue p) 8) =
        MCP41_ConvertToValue p ∧
      ((s1.use_sspi = true ∧
        (MCP41_Write cfg s p).2.2 =
          pre ++ ([Event.digitalWrite s1.cs_gpio Level.low] ++
            SSPI_TransferByte s1 MCP41_CMD_WRITE_WIPER ++
            SSPI_TransferByte s1 (MCP41_ConvertToValue p) ++
            [Event.digitalWrite s1.cs_gpio Level.high]) ∧
        (s1.cs_gpio ≠ s1.sspi_clk →
          bbBits s1.sspi_clk s1.sspi_mosi pre false = []) ∧
        (s1.sspi_clk ≠ s1.sspi_mosi →
          bbBits s1.sspi_clk s1.sspi_mosi
            (SSPI_TransferByte s1 MCP41_CMD_WRITE_WIPER ++
             SSPI_TransferByte s1 (MCP41_ConvertToValue p)) false =
            msbBits MCP41_CMD_WRITE_WIPER 8 ++
              msbBits (MCP41_ConvertToValue p) 8) ∧
        (s1.cs_gpio ≠ s1.sspi_clk → s1.cs_gpio ≠ s1.sspi_mosi →
          pinLevels s1.cs_gpio
            ([Event.digitalWrite s1.cs_gpio Level.low] ++
             SSPI_TransferByte s1 MCP41_CMD_WRITE_WIPER ++
             SSPI_TransferByte s1 (MCP41_ConvertToValue p) ++
             [Event.digitalWrite s1.cs_gpio Level.high]) =
            [Level.low, Level.high])) ∨
       (s1.use_sspi = false ∧
        (MCP41_Write cfg s p).2.2 =
          pre ++ [Event.spiBeginTransaction,
                  Event.digitalWrite s1.cs_gpio Level.low,
                  Event.spiTransfer MCP41_CMD_WRITE_WIPER,
                  Event.spiTransfer (MCP41_ConvertToValue p),
                  Event.digitalWrite s1.cs_gpio Level.high,
                  Event.spiEndTransaction] ∧
        hwBytes [Event.spiBeginTransaction,
                 Event.digitalWrite s1.cs_gpio Level.low,
                 Event.spiTransfer MCP41_CMD_WRITE_WIPER,
                 Event.spiTransfer (MCP41_ConvertToValue p),
                 Event.digitalWrite s1.cs_gpio Level.high,
                 Event.spiEndTransaction] =
          [MCP41_CMD_WRITE_WIPER, MCP41_ConvertToValue p] ∧
        pinLevels s1.cs_gpio
          [Event.spiBeginTransaction,
           Event.digitalWrite s1.cs_gpio Level.low,
           Event.spiTransfer MCP41_CMD_WRITE_WIPER,
           Event.spiTransfer (MCP41_ConvertToValue p),
           Event.digitalWrite s1.cs_gpio Level.high,
           Event.spiEndTransaction] = [Level.low, Level.high])) := by
  have hv256 : MCP41_ConvertToValue p < 256 :=
    Nat.lt_succ_of_le (convertToValue_le p)
  have hb1 : bitsToNat (msbBits MCP41_CMD_WRITE_WIPER 8) =
      MCP41_CMD_WRITE_WIPER :=
    bitsToNat_msbBits _ (by norm_num [MCP41_CMD_WRITE_WIPER])
  have hb2 := bitsToNat_msbBits _ hv256
  rcases write_cases cfg s p with ⟨hf, _, _⟩ | ⟨_, s1, hs1eq, hcs, _, _, _, htr⟩
  · rw [hok] at hf
    cases hf
  · have hdecode : s1.sspi_clk ≠ s1.sspi_mosi →
        bbBits s1.sspi_clk s1.sspi_mosi
          (SSPI_TransferByte s1 MCP41_CMD_WRITE_WIPER ++
           SSPI_TransferByte s1 (MCP41_ConvertToValue p)) false =
          msbBits MCP41_CMD_WRITE_WIPER 8 ++
            msbBits (MCP41_ConvertToValue p) 8 := by
      intro hne
      rw [bbBits_transferByte_append s1 hne MCP41_CMD_WRITE_WIPER _ false]
      congr 1
      rw [show SSPI_TransferByte s1 (MCP41_ConvertToValue p) =
            SSPI_TransferByte s1 (MCP41_ConvertToValue p) ++ []
          from (List.append_nil _).symm,
          bbBits_transferByte_append s1 hne _ _ _]
      simp [bbBits]
    have hlevels : s1.cs_gpio ≠ s1.sspi_clk → s1.cs_gpio ≠ s1.sspi_mosi →
        pinLevels s1.cs_gpio
          ([Event.digitalWrite s1.cs_gpio Level.low] ++
           SSPI_TransferByte s1 MCP41_CMD_WRITE_WIPER ++
           SSPI_TransferByte s1 (MCP41_ConvertToValue p) ++
           [Event.digitalWrite s1.cs_gpio Level.high]) =
          [Level.low, Level.high] := by
      intro h1 h2
      have t1 := pinLevels_transferBits s1 s1.cs_gpio
        MCP41_CMD_WRITE_WIPER h1 h2 8
      have t2 := pinLevels_transferBits s1 s1.cs_gpio
        (MCP41_ConvertToValue p) h1 h2 8
      simp only [SSPI_TransferByte, pinLevels_append, t1, t2]
      simp [pinLevels]
    by_cases hi : s.spi_inited
    · rw [if_pos hi] at hs1eq htr
      rw [List.nil_append] at htr
      refine ⟨s1, [], hcs, rfl, hb1, hb2, ?_⟩
      by_cases hss : s1.use_sspi
      · exact Or.inl ⟨hss, by rw [htr, if_pos hss, List.nil_append],
          fun _ => rfl, hdecode, hlevels⟩
      · refine Or.inr ⟨Bool.eq_false_iff.mpr hss,
          by rw [htr, if_neg hss, List.nil_append], rfl, ?_⟩
        simp [pinLevels]
    · rw [if_neg hi] at hs1eq htr
      refine ⟨s1, (MCP41_InitSpiIfNeeded cfg s).2, hcs,
              init_hwBytes cfg s, hb1, hb2, ?_⟩
      have hpre : s1.cs_gpio ≠ s1.sspi_clk →
          bbBits s1.sspi_clk s1.sspi_mosi
            (MCP41_InitSpiIfNeeded cfg s).2 false = [] := by
        intro hne
        rw [hs1eq] at hne ⊢
        apply bbBits_eq_nil
        apply init_no_clk_high
        rw [(init_fields cfg s).1] at hne
        exact hne
      by_cases hss : s1.use_sspi
      · exact Or.inl ⟨hss, by rw [htr, if_pos hss], hpre, hdecode, hlevels⟩
      · refine Or.inr ⟨Bool.eq_false_iff.mpr hss,
          by rw [htr, if_neg hss], rfl, ?_⟩
        simp [pinLevels]

/-- Witness for C2: the write of 50 % through the initialised SSPI
state succeeds, and its trace is the chip-select-framed two-byte
burst. -/
theorem claim_C2_witness :
    ∃ (s1 : State) (pre : List Event),
      0 ≤ s1.cs_gpio ∧
      hwBytes pre = [] ∧
      bitsToNat (msbBits MCP41_CMD_WRITE_WIPER 8) = MCP41_CMD_WRITE_WIPER ∧
      bitsToNat (msbBits (MCP41_ConvertToValue 50) 8) =
        MCP41_ConvertToValue 50 ∧
      ((s1.use_sspi = true ∧
        (MCP41_Write cfgSspi stSspiInited 50).2.2 =
          pre ++ ([Event.digitalWrite s1.cs_gpio Level.low] ++
            SSPI_TransferByte s1 MCP41_CMD_WRITE_WIPER ++
            SSPI_TransferByte s1 (MCP41_ConvertToValue 50) ++
            [Event.digitalWrite s1.cs_gpio Level.high]) ∧
        (s1.cs_gpio ≠ s1.sspi_clk →
          bbBits s1.sspi_clk s1.sspi_mosi pre false = []) ∧
        (s1.sspi_clk ≠ s1.sspi_mosi →
          bbBits s1.sspi_clk s1.sspi_mosi
            (SSPI_TransferByte s1 MCP41_CMD_WRITE_WIPER ++
             SSPI_TransferByte s1 (MCP41_ConvertToValue 50)) false =
            msbBits MCP41_CMD_WRITE_WIPER 8 ++
              msbBits (MCP41_ConvertToValue 50) 8) ∧
        (s1.cs_gpio ≠ s1.sspi_clk → s1.cs_gpio ≠ s1.sspi_mosi →
          pinLevels s1.cs_gpio
            ([Event.digitalWrite s1.cs_gpio Level.low] ++
             SSPI_TransferByte s1 MCP41_CMD_WRITE_WIPER ++
             SSPI_TransferByte s1 (MCP41_ConvertToValue 50) ++
             [Event.digitalWrite s1.cs_gpio Level.high]) =
            [Level.low, Level.high])) ∨
       (s1.use_sspi = false ∧
        (MCP41_Write cfgSspi stSspiInited 50).2.2 =
          pre ++ [Event.spiBeginTransaction,
                  Event.digitalWrite s1.cs_gpio Level.low,
                  Event.spiTransfer MCP41_CMD_WRITE_WIPER,
                  Event.spiTransfer (MCP41_ConvertToValue 50),
                  Event.digitalWrite s1.cs_gpio Level.high,
                  Event.spiEndTransaction] ∧
        hwBytes [Event.spiBeginTransaction,
                 Event.digitalWrite s1.cs_gpio Level.low,
                 Event.spiTransfer MCP41_CMD_WRITE_WIPER,
                 Event.spiTransfer (MCP41_ConvertToValue 50),
                 Event.digitalWrite s1.cs_gpio Level.high,
                 Event.spiEndTransaction] =
          [MCP41_CMD_WRITE_WIPER, MCP41_ConvertToValue 50] ∧
        pinLevels s1.cs_gpio
          [Event.spiBeginTransaction,
           Event.digitalWrite s1.cs_gpio Level.low,
           Event.spiTransfer MCP41_CMD_WRITE_WIPER,
           Event.spiTransfer (MCP41_ConvertToValue 50),
           Event.digitalWrite s1.cs_gpio Level.high,
           Event.spiEndTransaction] = [Level.low, Level.high])) :=
  claim_C2_two_byte_frame cfgSspi stSspiInited 50 (by decide)
